import Mathlib

/-
Verification of the vwifi virtual cfg80211 driver (src/vwifi.c) against its
natural-language specification.

Shallow embedding conventions:
* C byte strings (char arrays read as NUL-terminated strings) are modelled as
  `List Nat` of their content bytes; a C string cannot contain the byte 0, so
  the list holds the bytes before the terminator and iteration "until NUL"
  corresponds to iterating the whole list.
* Machine integers are `Nat` (unsigned) or `Int` (signed) with explicit
  `% 2 ^ 64` / `% 2 ^ 32` reductions where C overflow semantics matter.
* The kernel mutex, work queue and allocator are modelled by explicit boolean
  parameters: `interrupted` (did `mutex_lock_interruptible` fail), `schedOk`
  (did `schedule_work` accept the item), and allocation oracles.
* Upcalls into the host stack (cfg80211_*) are collected into an event list
  returned next to the new state.
-/

namespace Vwifi

/-- 802.11 maximum SSID length, `SSID_MAX_LENGTH` in vwifi.c. -/
def SSID_MAX_LENGTH : Nat := 32

/-- Maximum Ethernet payload length, `ETH_DATA_LEN`. -/
def ETH_DATA_LEN : Nat := 1500

/-- Length of an Ethernet address, `ETH_ALEN`. -/
def ETH_ALEN : Nat := 6

/-- Linux errno `EBUSY`. -/
def EBUSY : Int := 16

/-- Linux errno `ERESTARTSYS`. -/
def ERESTARTSYS : Int := 512

/-- `WLAN_STATUS_SUCCESS` association status code. -/
def WLAN_STATUS_SUCCESS : Nat := 0

/-- `NL80211_TIMEOUT_SCAN` from enum nl80211_timeout_reason. -/
def NL80211_TIMEOUT_SCAN : Nat := 1

/-- One iteration of the murmur loop body from `murmurhash` in vwifi.c:
`h ^= *str; h *= 0x5bd1e9955bd1e995; h ^= h >> 47;` on a 64-bit unsigned `h`. -/
def murmurStep (h b : Nat) : Nat :=
  let h1 := (h ^^^ b) % 2 ^ 64
  let h2 := (h1 * 0x5bd1e9955bd1e995) % 2 ^ 64
  (h2 ^^^ (h2 >>> 47)) % 2 ^ 64

/-- The murmur loop folded over the string bytes (the C loop runs until the
NUL terminator, i.e. over exactly the bytes the list models). -/
def murmurAux (h : Nat) : List Nat → Nat
  | [] => h
  | b :: rest => murmurAux (murmurStep h b) rest

/-- `murmurhash` from vwifi.c: seed 525201411107845655, then the step loop. -/
def murmurhash (str : List Nat) : Nat :=
  murmurAux 525201411107845655 str

/-- Loop body of Linux `u64_to_ether_addr` (include/linux/etherdevice.h):
`for (i = ETH_ALEN - 1; i >= 0; i--) { addr[i] = u & 0xff; u >>= 8; }`.
The accumulator receives `u & 0xff` at the front, so the finished list is
`addr[0] .. addr[5]` with `addr[5]` the least significant byte. -/
def u64_to_ether_addr_loop : Nat → Nat → List Nat → List Nat
  | 0, _, acc => acc
  | i + 1, u, acc => u64_to_ether_addr_loop i (u >>> 8) ((u % 256) :: acc)

/-- Linux `u64_to_ether_addr`: the low 48 bits of `u`, most significant byte
first (network order). -/
def u64_to_ether_addr (u : Nat) : List Nat :=
  u64_to_ether_addr_loop ETH_ALEN u []

/-- `generate_bssid_with_ssid` from vwifi.c: hash the SSID, write the hash
with `u64_to_ether_addr`, then `result[0] &= 0xfe; result[0] |= 0x02;`. -/
def generate_bssid_with_ssid (ssid : List Nat) : List Nat :=
  match u64_to_ether_addr (murmurhash ssid) with
  | [] => []
  | b0 :: rest => ((b0 &&& 0xfe) ||| 0x02) :: rest

/-- Follows the spec's words for the BSSID derivation, exactly as written in
section 6: hash initialised to 0x074D4B97A0F8F697, the xor-multiply-xor loop,
the final hash written little-endian into 6 bytes, byte 0 masked with 0xFE
then ORed with 0x02. Used only to compare against the source derivation. -/
def bssid_spec_as_written (ssid : List Nat) : List Nat :=
  let h := murmurAux 0x074D4B97A0F8F697 ssid
  let bytes := [h % 256, (h >>> 8) % 256, (h >>> 16) % 256,
                (h >>> 24) % 256, (h >>> 32) % 256, (h >>> 40) % 256]
  match bytes with
  | [] => []
  | b0 :: rest => ((b0 &&& 0xfe) ||| 0x02) :: rest

/-- Follows the spec's words amended to match the source: hash initialised to
0x0749E3E6989DF617 (the decimal 525201411107845655 of the source), the same
xor-multiply-xor loop, and the low 48 bits of the final hash written
big-endian (most significant byte first) into the 6 bytes, byte 0 masked with
0xFE then ORed with 0x02. -/
def bssid_spec_amended (ssid : List Nat) : List Nat :=
  let h := murmurAux 0x0749E3E6989DF617 ssid
  let bytes := [(h >>> 40) % 256, (h >>> 32) % 256, (h >>> 24) % 256,
                (h >>> 16) % 256, (h >>> 8) % 256, h % 256]
  match bytes with
  | [] => []
  | b0 :: rest => ((b0 &&& 0xfe) ||| 0x02) :: rest

/-- Linux `GOLDEN_RATIO_32`, used by `hash_32`. -/
def GOLDEN_RATIO_32 : Nat := 0x61C88647

/-- Bucket index of a 32-bit key in the 4-bit (16 bucket) `ssid_table`
hashtable: Linux `hash_min(key, 4)` = `hash_32(key, 4)` =
`(key * GOLDEN_RATIO_32) >> (32 - 4)` on u32. -/
def hash_min32 (key : Nat) : Nat :=
  ((key % 2 ^ 32) * GOLDEN_RATIO_32 % 2 ^ 32) >>> 28

/-- An entry of the AP database `ssid_table`: the u32 key it was inserted
under (`hash_add(ssid_table, &ap->node, key)`), the SSID bytes stored by
`strncpy(ap->ssid, token, n)`, and the derived BSSID. The hashtable itself is
modelled as the list of its entries; `hash_add` prepends. -/
structure APEntry where
  key : Nat
  ssid : List Nat
  bssid : List Nat
deriving DecidableEq

/-- A byte is one of the `delims` separators `"[]"` of `update_ssids`. -/
def isDelim (b : Nat) : Bool :=
  b == 91 || b == 93

/-- One pass of the `update_ssids` tokenizer loop, with fuel: skip separator
bytes (`strspn(s, delims)`), take the maximal run of non-separator bytes
(`strcspn(s, delims)`); an empty run means the string is exhausted
(`if (n == 0) continue;` re-tests `*s != 0` which now fails). The C string is
a list of nonzero bytes, so `strcspn` stops exactly at a delimiter or the end
of the list. Fuel `s.length` suffices: every round consumes at least one
byte. -/
def tokenizeAux : Nat → List Nat → List (List Nat)
  | 0, _ => []
  | fuel + 1, s =>
    let s1 := s.dropWhile isDelim
    let tok := s1.takeWhile (fun b => !(isDelim b))
    if tok.isEmpty then []
    else tok :: tokenizeAux fuel (s1.drop tok.length)

/-- The bracket-delimited tokens of a configuration string, in order. -/
def tokenize (s : List Nat) : List (List Nat) :=
  tokenizeAux s.length s

/-- The duplicate test of `update_ssids`: walk the bucket of `key`
(`hash_for_each_possible_safe`) and compare with
`strncmp(token, ap->ssid, n) == 0`. An entry is in the walked bucket iff its
own insertion key hashes to the same bucket. `strncmp` with `n = token.length`
succeeds iff the stored SSID bytes start with the token (a shorter stored
SSID hits its NUL padding, which differs from the token's nonzero byte). -/
def ssid_exists (token : List Nat) (key : Nat) (table : List APEntry) : Bool :=
  table.any (fun ap =>
    hash_min32 ap.key == hash_min32 key && List.isPrefixOf token ap.ssid)

/-- The per-token body of the `update_ssids` loop, folded over the token
list. `allocOk cnt` models the result of the `cnt`-th `kzalloc` call; on
allocation failure the C function logs and RETURNS, abandoning the remaining
tokens. Insertion stores the token bytes and `generate_bssid_with_ssid` of
the token under key `(u32) murmurhash(token)`.
Caution (claim C7): the C code copies the token into a 32-byte stack buffer
and into the 32-byte `ap->ssid` field WITHOUT truncation; for tokens longer
than 32 bytes those writes are out of bounds. The model stores the full token
bytes; `token_terminator_indices` below measures the writes the C performs. -/
def update_tokens (allocOk : Nat → Bool) :
    Nat → List (List Nat) → List APEntry → List APEntry
  | _, [], table => table
  | cnt, tok :: rest, table =>
    let key := murmurhash tok % 2 ^ 32
    if ssid_exists tok key table then
      update_tokens allocOk cnt rest table
    else if allocOk cnt then
      update_tokens allocOk (cnt + 1) rest
        ({ key := key, ssid := tok, bssid := generate_bssid_with_ssid tok } :: table)
    else
      table

/-- `update_ssids` from vwifi.c: tokenize the configuration string and insert
each new token into the AP database. -/
def update_ssids (allocOk : Nat → Bool) (ssidList : List Nat)
    (table : List APEntry) : List APEntry :=
  update_tokens allocOk 0 (tokenize ssidList) table

/-- For each token of a configuration string, the index of the terminating
zero the C code writes into the 32-byte stack buffer `token`
(`strncpy(token, s, n)` writes indices `0..n-1`, then `token[n] = 0` writes
index `n`). An index `≥ SSID_MAX_LENGTH` is past the end of the buffer. -/
def token_terminator_indices (cfg : List Nat) : List Nat :=
  (tokenize cfg).map (fun t => t.length)

/-- A configuration string whose single token is 33 bytes of 0x61:
`"[aaaaaaaaaaaaaaaaaaaaaaaaaaaaaaaaa]"`. -/
def c7_failing_input : List Nat :=
  91 :: (List.replicate 33 97 ++ [93])

/-- The configuration string `"[A][B]"`. -/
def c8_cfg : List Nat := [91, 65, 93, 91, 66, 93]

/-- An allocation oracle under which only the first `kzalloc` fails. -/
def c8_alloc (n : Nat) : Bool := n != 0

/-- The spec's `contains(ssid)` operation on the AP Directory. -/
def ap_directory_contains (table : List APEntry) (s : List Nat) : Bool :=
  table.any (fun ap => ap.ssid == s)

/-- Well-formedness of the AP database: every entry is stored under the u32
truncation of the murmur hash of its SSID, as `update_ssids` inserts it. -/
def TableWF (table : List APEntry) : Prop :=
  ∀ ap ∈ table, ap.key = murmurhash ap.ssid % 2 ^ 32

/-- `is_valid_ssid` from vwifi.c: walk the bucket of
`(u32) murmurhash(connecting_ssid)` and `strcmp` each stored SSID. -/
def is_valid_ssid (connecting_ssid : List Nat) (table : List APEntry) : Bool :=
  table.any (fun ap =>
    hash_min32 ap.key == hash_min32 (murmurhash connecting_ssid % 2 ^ 32) &&
      ap.ssid == connecting_ssid)

/-- `get_connecting_bssid` from vwifi.c: same bucket walk; on a match copy
the stored BSSID, otherwise leave `connecting_bssid` unchanged. -/
def get_connecting_bssid (connecting_ssid : List Nat) (table : List APEntry)
    (connecting_bssid : List Nat) : List Nat :=
  match table.find? (fun ap =>
      hash_min32 ap.key == hash_min32 (murmurhash connecting_ssid % 2 ^ 32) &&
        ap.ssid == connecting_ssid) with
  | some ap => ap.bssid
  | none => connecting_bssid

/-- The mutable control state of `struct owl_context` together with the
global `ssid_table`. `scan_request` holds an opaque identifier of the pending
scan descriptor (a pointer in C). -/
structure OwlState where
  connecting_ssid : List Nat
  connecting_bssid : List Nat
  disconnect_reason_code : Nat
  scan_request : Option Nat
  ssid_table : List APEntry
deriving DecidableEq

/-- The fields `vwifi_init` initialises (`connecting_ssid[0] = 0`,
`disconnect_reason_code = 0`, `scan_request = NULL`); the static
`ssid_table` hashtable is zeroed, hence empty, at module load. Other fields
keep whatever the freshly allocated context held. -/
def vwifi_init (g : OwlState) : OwlState :=
  { g with
    connecting_ssid := []
    disconnect_reason_code := 0
    scan_request := none
    ssid_table := [] }

/-- Upcalls the driver delivers to the host stack (cfg80211 notification
calls). `connectResult iface status ies` carries the association status and
the (empty) request/response IE bytes; `connectTimeout` carries the
nl80211 timeout reason. -/
inductive Upcall where
  | bssReport (bssid : List Nat) (signal : Int) (ie : List Nat)
  | scanDone (aborted : Bool)
  | connectResult (iface : Nat) (status : Nat) (ies : List Nat)
  | connectTimeout (iface : Nat) (reason : Nat)
  | disconnected (iface : Nat) (reason : Nat)
deriving DecidableEq

/-- Indices of the interface records in `owl_context.netintf_list`, in
creation order: 0 is the `owl0` station, 1 is the `owl0sink` sink. -/
def netintf_ids : List Nat := [0, 1]

/-- `owl_connect_routine` from vwifi.c. If the interruptible mutex wait
fails, return with no upcall and no state change. Otherwise deliver exactly
one upcall on the first interface of `netintf_list`
(`list_first_entry`): `cfg80211_connect_timeout(ndev, NULL, NULL, 0, ...,
NL80211_TIMEOUT_SCAN)` when `is_valid_ssid` fails, else
`cfg80211_connect_result(ndev, NULL, NULL, 0, NULL, 0, WLAN_STATUS_SUCCESS,
...)`; then clear `connecting_ssid` to the empty string. -/
def owl_connect_routine (interrupted : Bool) (st : OwlState) :
    OwlState × List Upcall :=
  if interrupted then (st, [])
  else
    let iface := netintf_ids.headD 0
    if !(is_valid_ssid st.connecting_ssid st.ssid_table) then
      ({ st with connecting_ssid := [] },
       [Upcall.connectTimeout iface NL80211_TIMEOUT_SCAN])
    else
      ({ st with connecting_ssid := [] },
       [Upcall.connectResult iface WLAN_STATUS_SUCCESS []])

/-- `owl_connect` from vwifi.c. `sme_ssid` is the requested SSID byte array
(`sme->ssid` with length `sme->ssid_len`). The length is clamped to
`SSID_MAX_LENGTH`, the bytes are copied and a terminating zero is written at
the clamped index (inside the 33-byte `connecting_ssid` buffer); the stored C
string therefore ends at the first zero byte of the copied prefix. Then
`get_connecting_bssid` fills `connecting_bssid`; finally the connect work is
submitted, `-EBUSY` when refused. -/
def owl_connect (interrupted schedOk : Bool) (sme_ssid : List Nat)
    (st : OwlState) : Int × OwlState :=
  if interrupted then (-ERESTARTSYS, st)
  else
    let ssid_len :=
      if sme_ssid.length > SSID_MAX_LENGTH then SSID_MAX_LENGTH
      else sme_ssid.length
    let newSsid := (sme_ssid.take ssid_len).takeWhile (fun b => b != 0)
    let st :=
      { st with
        connecting_ssid := newSsid
        connecting_bssid :=
          get_connecting_bssid newSsid st.ssid_table st.connecting_bssid }
    if schedOk then (0, st) else (-EBUSY, st)

/-- `owl_scan` from vwifi.c: fail `-ERESTARTSYS` when the mutex wait is
interrupted (nothing staged); fail `-EBUSY` without changes when a scan
request is already staged; otherwise stage the request and submit the
scan-start work, `-EBUSY` when the submission is refused. -/
def owl_scan (interrupted schedOk : Bool) (request : Nat) (st : OwlState) :
    Int × OwlState :=
  if interrupted then (-ERESTARTSYS, st)
  else
    match st.scan_request with
    | some _ => (-EBUSY, st)
    | none =>
      let st := { st with scan_request := some request }
      if schedOk then (0, st) else (-EBUSY, st)

/-- The signed 32-bit value of a u32, the C cast `(s32) get_random_u32()`. -/
def s32_of_u32 (u : Nat) : Int :=
  let v : Nat := u % 2 ^ 32
  if v < 2 ^ 31 then (v : Int) else (v : Int) - 2 ^ 32

/-- `rand_int` from vwifi.c as a function of the raw `get_random_u32` value:
`result = (s32) u; result %= (up - low + 1); result = abs(result);
result += low;`. C `%` is the truncated remainder, `Int.tmod`. -/
def rand_int (low up : Int) (u : Nat) : Int :=
  let result := s32_of_u32 u
  let result := Int.tmod result (up - low + 1)
  let result := |result|
  result + low

/-- The information-element stream built in `inform_dummy_bss`:
`ie[0] = WLAN_EID_SSID (= 0); ie[1] = ssid_len;` then the SSID bytes. -/
def ssid_ie (ssid : List Nat) : List Nat :=
  0 :: ssid.length :: ssid

/-- `inform_dummy_bss` from vwifi.c: reload the AP database from the module
parameter, return unchanged if it is empty, otherwise report one BSS per
entry with signal `rand_int(-100, -30) * 100`. `urand i` is the
`get_random_u32` value drawn for the `i`-th reported entry. -/
def inform_dummy_bss (allocOk : Nat → Bool) (urand : Nat → Nat)
    (ssidList : List Nat) (table : List APEntry) :
    List APEntry × List Upcall :=
  let table1 := update_ssids allocOk ssidList table
  if table1.isEmpty then (table1, [])
  else
    (table1,
     table1.enum.map (fun p =>
       Upcall.bssReport p.2.bssid (rand_int (-100) (-30) (urand p.1) * 100)
         (ssid_ie p.2.ssid)))

/-- Is an upcall the scan-finished notification `cfg80211_scan_done`. -/
def isScanDone : Upcall → Bool
  | Upcall.scanDone _ => true
  | _ => false

/-- `owl_scan_timeout_work` from vwifi.c: first `inform_dummy_bss` (before
the mutex), then take the mutex — returning with no further effect when the
wait is interrupted — then `cfg80211_scan_done(owl->scan_request, &info)`
with `info.aborted = false`, then `owl->scan_request = NULL`. -/
def owl_scan_timeout_work (interrupted : Bool) (allocOk : Nat → Bool)
    (urand : Nat → Nat) (ssidList : List Nat) (st : OwlState) :
    OwlState × List Upcall :=
  let r := inform_dummy_bss allocOk urand ssidList st.ssid_table
  let st1 := { st with ssid_table := r.1 }
  if interrupted then (st1, r.2)
  else ({ st1 with scan_request := none }, r.2 ++ [Upcall.scanDone false])

/-- Traffic counters of `struct net_device_stats` used by the driver. -/
structure NetDevStats where
  tx_packets : Nat
  tx_bytes : Nat
  rx_packets : Nat
  rx_bytes : Nat
  rx_dropped : Nat
deriving DecidableEq

/-- An interface record (`struct owl_ndev_priv_context`): its counters and
its receive queue of frame payloads (`struct owl_packet` carries `datalen`
bytes of `data`; the payload list models both). -/
structure IfaceRec where
  stats : NetDevStats
  rx_queue : List (List Nat)
deriving DecidableEq

/-- A fresh interface record: zero counters, empty queue. -/
def emptyIface : IfaceRec :=
  { stats := { tx_packets := 0, tx_bytes := 0, rx_packets := 0,
               rx_bytes := 0, rx_dropped := 0 }
    rx_queue := [] }

/-- The data-path state: the interface records of `netintf_list` in order
(index 0 the station `owl0`, index 1 the sink `owl0sink`). -/
structure NetState where
  ifaces : List IfaceRec
deriving DecidableEq

/-- The interface record at an index of the interface list. -/
def getIface (st : NetState) (i : Nat) : IfaceRec :=
  st.ifaces.getD i emptyIface

/-- Replace the interface record at an index of the interface list. -/
def setIface (st : NetState) (i : Nat) (f : IfaceRec → IfaceRec) : NetState :=
  { ifaces := st.ifaces.set i (f (st.ifaces.getD i emptyIface)) }

/-- `owl_handle_rx` from vwifi.c: if the receive queue is empty, log and
return. Otherwise take the head packet; on `dev_alloc_skb` failure
(`skbOk = false`) count it in `rx_dropped` and free it; otherwise copy the
payload into the skb, hand it to `netif_rx` (the delivered `(iface, bytes)`
pair), bump `rx_packets`/`rx_bytes`, and free the packet. Either way the
head packet leaves the queue. -/
def owl_handle_rx (skbOk : Bool) (dev : Nat) (st : NetState) :
    NetState × List (Nat × List Nat) :=
  match (getIface st dev).rx_queue with
  | [] => (st, [])
  | pkt :: rest =>
    if skbOk then
      (setIface st dev (fun np =>
        { np with
          rx_queue := rest
          stats := { np.stats with
                     rx_packets := np.stats.rx_packets + 1
                     rx_bytes := np.stats.rx_bytes + pkt.length } }),
       [(dev, pkt)])
    else
      (setIface st dev (fun np =>
        { np with
          rx_queue := rest
          stats := { np.stats with rx_dropped := np.stats.rx_dropped + 1 } }),
       [])

/-- `owl_ndo_start_xmit` from vwifi.c on interface `dev` with payload `skb`
(at most `ETH_DATA_LEN` bytes; beyond that the C `memcpy` into
`pkt->data[ETH_DATA_LEN]` would overflow). The transmit counters are bumped
first; when the packet allocation fails (`pktOk = false`) the frame is
silently dropped and `NETDEV_TX_OK` is still returned. Otherwise the
destination is `list_last_entry` of `netintf_list`, or `list_first_entry`
when the transmitter is itself the last; the copied payload is appended to
the destination's receive queue and `owl_handle_rx` is invoked on the
destination at once. -/
def owl_ndo_start_xmit (pktOk skbOk : Bool) (skb : List Nat) (dev : Nat)
    (st : NetState) : NetState × List (Nat × List Nat) :=
  let st := setIface st dev (fun np =>
    { np with stats := { np.stats with
                         tx_packets := np.stats.tx_packets + 1
                         tx_bytes := np.stats.tx_bytes + skb.length } })
  if !pktOk then (st, [])
  else
    let dest0 := netintf_ids.getLastD 0
    let dest := if dest0 == dev then netintf_ids.headD 0 else dest0
    let st := setIface st dest (fun np =>
      { np with rx_queue := np.rx_queue ++ [skb] })
    owl_handle_rx skbOk dest st

/-- The peer of an interface as `owl_ndo_start_xmit` computes it. -/
def peer_iface (dev : Nat) : Nat :=
  if netintf_ids.getLastD 0 == dev then netintf_ids.headD 0
  else netintf_ids.getLastD 0

/-- The index at which `owl_connect` writes the terminating zero into the
33-byte `connecting_ssid` buffer: the clamped SSID length. -/
def owl_connect_terminator_index (sme_ssid : List Nat) : Nat :=
  if sme_ssid.length > SSID_MAX_LENGTH then SSID_MAX_LENGTH else sme_ssid.length

/-- A concrete control state whose AP database holds the single SSID `"A"`
(byte 65), stored exactly as `update_ssids` would store it. -/
def sampleConnectState : OwlState :=
  { connecting_ssid := [65]
    connecting_bssid := List.replicate 6 0
    disconnect_reason_code := 0
    scan_request := none
    ssid_table :=
      [{ key := murmurhash [65] % 2 ^ 32
         ssid := [65]
         bssid := generate_bssid_with_ssid [65] }] }

/-- A concrete control state with a scan already staged (descriptor 5). -/
def sampleBusyScanState : OwlState :=
  { connecting_ssid := []
    connecting_bssid := []
    disconnect_reason_code := 0
    scan_request := some 5
    ssid_table := [] }

/-- A concrete data-path state: the two fresh interface records. -/
def sampleNetState : NetState :=
  { ifaces := [emptyIface, emptyIface] }

end Vwifi

namespace Vwifi

theorem u64_to_ether_addr_eq (u : Nat) :
    u64_to_ether_addr u =
      [(u >>> 40) % 256, (u >>> 32) % 256, (u >>> 24) % 256,
       (u >>> 16) % 256, (u >>> 8) % 256, u % 256] := by
  simp [u64_to_ether_addr, ETH_ALEN, u64_to_ether_addr_loop,
        Nat.shiftRight_add]
  omega

theorem generate_bssid_head (ssid : List Nat) :
    (generate_bssid_with_ssid ssid).headD 0 =
      (((murmurhash ssid >>> 40) % 256) &&& 0xfe) ||| 0x02 := by
  rw [generate_bssid_with_ssid, u64_to_ether_addr_eq]
  rfl

theorem masked_byte_bits (y : Nat) :
    Nat.testBit ((y &&& 0xfe) ||| 0x02) 0 = false ∧
      Nat.testBit ((y &&& 0xfe) ||| 0x02) 1 = true := by
  constructor
  · simp [Nat.testBit_or, Nat.testBit_and]
  · simp [Nat.testBit_or, Nat.testBit_and]
    exact Or.inr (by decide)

theorem update_tokens_bssid_wf (allocOk : Nat → Bool) :
    ∀ (toks : List (List Nat)) (cnt : Nat) (table : List APEntry),
      (∀ ap ∈ table, ap.bssid = generate_bssid_with_ssid ap.ssid) →
      ∀ ap ∈ update_tokens allocOk cnt toks table,
        ap.bssid = generate_bssid_with_ssid ap.ssid := by
  intro toks
  induction toks with
  | nil => intro cnt table h; exact h
  | cons tok rest ih =>
    intro cnt table h ap hap
    rw [update_tokens] at hap
    by_cases hex : ssid_exists tok (murmurhash tok % 2 ^ 32) table
    · rw [if_pos hex] at hap
      exact ih cnt table h ap hap
    · rw [if_neg hex] at hap
      by_cases hal : allocOk cnt
      · rw [if_pos hal] at hap
        refine ih (cnt + 1) _ ?_ ap hap
        intro ap2 hap2
        rcases List.mem_cons.1 hap2 with h2 | h2
        · rw [h2]
        · exact h ap2 h2
      · rw [if_neg hal] at hap
        exact h ap hap

/-- C5: the spec's BSSID derivation sentence fails on the code at the
one-byte SSID `"a"`: the code seeds the hash with 525201411107845655
(0x0749E3E6989DF617, not the spec's 0x074D4B97A0F8F697) and writes the low
48 bits of the hash most-significant-byte first (`u64_to_ether_addr`), not
little-endian. -/
theorem c5_counterexample_spec_derivation_differs :
    generate_bssid_with_ssid [97] ≠ bssid_spec_as_written [97] := by decide

/-- C5 (amended): for every SSID, the derived BSSID equals the murmur hash
seeded with 0x0749E3E6989DF617 (= 525201411107845655), updated per byte by
xor, multiply by 0x5BD1E9955BD1E995 and xor with the right-shift by 47, whose
low 48 bits are then written big-endian (most significant byte first) into
the 6 bytes, after which byte 0 is masked with 0xFE and ORed with 0x02. -/
theorem c5_bssid_derivation_amended :
    ∀ ssid : List Nat, generate_bssid_with_ssid ssid = bssid_spec_amended ssid := by
  intro ssid
  rw [generate_bssid_with_ssid, u64_to_ether_addr_eq, bssid_spec_amended,
      murmurhash]

/-- C6: every derived BSSID — both as `generate_bssid_with_ssid` computes it
and as stored for each entry the AP Directory load inserts — has byte 0 with
bit 0 = 0 (unicast) and bit 1 = 1 (locally administered); and the derivation
is pure, depending only on the SSID bytes. -/
theorem c6_bssid_unicast_locally_administered :
    (∀ ssid : List Nat,
       Nat.testBit ((generate_bssid_with_ssid ssid).headD 0) 0 = false ∧
       Nat.testBit ((generate_bssid_with_ssid ssid).headD 0) 1 = true) ∧
    (∀ (allocOk : Nat → Bool) (cfg : List Nat),
       ∀ ap ∈ update_ssids allocOk cfg [],
         Nat.testBit (ap.bssid.headD 0) 0 = false ∧
         Nat.testBit (ap.bssid.headD 0) 1 = true) ∧
    (∀ s t : List Nat, s = t →
       generate_bssid_with_ssid s = generate_bssid_with_ssid t) := by
  have hbits : ∀ ssid : List Nat,
      Nat.testBit ((generate_bssid_with_ssid ssid).headD 0) 0 = false ∧
      Nat.testBit ((generate_bssid_with_ssid ssid).headD 0) 1 = true := by
    intro ssid
    rw [generate_bssid_head]
    exact masked_byte_bits _
  refine ⟨hbits, ?_, ?_⟩
  · intro allocOk cfg ap hap
    have hwf := update_tokens_bssid_wf allocOk (tokenize cfg) 0 []
      (by intro ap2 h2; exact absurd h2 (List.not_mem_nil ap2)) ap hap
    rw [hwf]
    exact hbits ap.ssid
  · intro s t h
    rw [h]

/-- C7: the claim that `load` truncates long tokens to 32 bytes and the copy
into the 32-byte token buffer stays in bounds is a code bug: on the
configuration string `"[" ++ 33 * "a" ++ "]"` the single parsed token has 33
bytes, so `strncpy(token, s, 33)` writes index 32 and `token[33] = 0` writes
index 33 of `char token[32]` — past the end of the buffer. -/
theorem c7_token_copy_out_of_bounds :
    token_terminator_indices c7_failing_input = [33] ∧
    ∃ i ∈ token_terminator_indices c7_failing_input, SSID_MAX_LENGTH ≤ i := by
  decide

theorem is_valid_ssid_eq_contains (s : List Nat) :
    ∀ table : List APEntry, TableWF table →
      is_valid_ssid s table = ap_directory_contains table s := by
  intro table
  induction table with
  | nil => intro _; rfl
  | cons a l ih =>
    intro hwf
    have ha := hwf a (List.mem_cons_self a l)
    have hl : TableWF l := fun ap hap => hwf ap (List.mem_cons_of_mem a hap)
    have htail := ih hl
    rw [is_valid_ssid, ap_directory_contains, List.any_cons, List.any_cons]
    rw [is_valid_ssid] at htail
    rw [ap_directory_contains] at htail
    rw [htail]
    by_cases h : a.ssid = s
    · rw [h] at ha
      simp [h, ha]
    · have hb : (a.ssid == s) = false := by
        simp [beq_iff_eq, h]
      simp [hb]

/-- C1: a run of the connect work handler whose mutex wait is not
interrupted delivers exactly one upcall, on interface 0 (the station, the
first entry of the interface list): a successful association with status
`WLAN_STATUS_SUCCESS` and no IEs when the AP Directory contains
`connecting_ssid`, otherwise a connect timeout with reason
`NL80211_TIMEOUT_SCAN`; and `connecting_ssid` is cleared to the empty string
in both cases. -/
theorem c1_connect_routine_dichotomy (st : OwlState)
    (hwf : TableWF st.ssid_table) :
    (owl_connect_routine false st).1.connecting_ssid = [] ∧
    (owl_connect_routine false st).2 =
      (if ap_directory_contains st.ssid_table st.connecting_ssid then
        [Upcall.connectResult 0 WLAN_STATUS_SUCCESS []]
      else
        [Upcall.connectTimeout 0 NL80211_TIMEOUT_SCAN]) := by
  rw [← is_valid_ssid_eq_contains st.connecting_ssid st.ssid_table hwf]
  rw [owl_connect_routine]
  by_cases h : is_valid_ssid st.connecting_ssid st.ssid_table
  · simp [h, netintf_ids]
  · simp [h, netintf_ids]

/-- Witness for C1 at a concrete state whose directory holds the SSID being
connected, discharging the table well-formedness hypothesis. -/
theorem c1_connect_routine_witness :
    (owl_connect_routine false sampleConnectState).1.connecting_ssid = [] ∧
    (owl_connect_routine false sampleConnectState).2 =
      (if ap_directory_contains sampleConnectState.ssid_table
            sampleConnectState.connecting_ssid then
        [Upcall.connectResult 0 WLAN_STATUS_SUCCESS []]
      else
        [Upcall.connectTimeout 0 NL80211_TIMEOUT_SCAN]) :=
  c1_connect_routine_dichotomy sampleConnectState (by
    intro ap hap
    rw [sampleConnectState] at hap
    rcases List.mem_cons.1 hap with h | h
    · rw [h]
    · exact absurd h (List.not_mem_nil ap))

/-- C2: `owl_scan` fails `-ERESTARTSYS` with nothing staged when the mutex
wait is interrupted; fails `-EBUSY` with no state change while a scan
request is staged; otherwise stages the supplied descriptor and returns 0,
or `-EBUSY` (descriptor staged) when the work submission is refused. -/
theorem c2_scan_busy_discipline (schedOk : Bool) (req : Nat) (st : OwlState) :
    (owl_scan true schedOk req st = (-ERESTARTSYS, st)) ∧
    (st.scan_request ≠ none → owl_scan false schedOk req st = (-EBUSY, st)) ∧
    (st.scan_request = none →
      owl_scan false true req st = (0, { st with scan_request := some req }) ∧
      owl_scan false false req st = (-EBUSY, { st with scan_request := some req })) := by
  refine ⟨by rw [owl_scan]; rw [if_pos rfl], ?_, ?_⟩
  · intro h
    match hr : st.scan_request with
    | none => exact absurd hr h
    | some q => rw [owl_scan]; simp [hr]
  · intro h
    constructor
    · rw [owl_scan]; simp [h]
    · rw [owl_scan]; simp [h]

/-- Witness for C2: the busy branch at a concrete staged state and the
staging branch at the fresh state, hypotheses discharged concretely. -/
theorem c2_scan_busy_witness :
    owl_scan false true 7 sampleBusyScanState = (-EBUSY, sampleBusyScanState) ∧
    owl_scan false true 7 (vwifi_init sampleBusyScanState) =
      (0, { vwifi_init sampleBusyScanState with scan_request := some 7 }) :=
  ⟨(c2_scan_busy_discipline true 7 sampleBusyScanState).2.1 (by decide),
   ((c2_scan_busy_discipline true 7 (vwifi_init sampleBusyScanState)).2.2 rfl).1⟩

theorem inform_dummy_bss_no_scan_done (allocOk : Nat → Bool)
    (urand : Nat → Nat) (ssidList : List Nat) (table : List APEntry) :
    (inform_dummy_bss allocOk urand ssidList table).2.countP isScanDone = 0 := by
  rw [inform_dummy_bss]
  by_cases h : (update_ssids allocOk ssidList table).isEmpty
  · simp [h]
  · simp only [h, if_neg, Bool.false_eq_true, not_false_eq_true]
    rw [List.countP_map]
    apply List.countP_eq_zero.2
    intro a _
    simp [Function.comp, isScanDone]

/-- C3: when the scan-complete work handler runs without the mutex wait being
interrupted, its upcall list contains exactly one scan-done notification,
that notification carries `aborted = false` and comes after every other
upcall of the run, and `scan_request` is cleared to null; when the wait is
interrupted, no scan-done upcall is produced and `scan_request` is
unchanged. -/
theorem c3_scan_done_exactly_once (allocOk : Nat → Bool) (urand : Nat → Nat)
    (ssidList : List Nat) (st : OwlState) :
    ((owl_scan_timeout_work false allocOk urand ssidList st).2.countP isScanDone = 1) ∧
    ((owl_scan_timeout_work false allocOk urand ssidList st).2.getLast? =
      some (Upcall.scanDone false)) ∧
    ((owl_scan_timeout_work false allocOk urand ssidList st).1.scan_request = none) ∧
    ((owl_scan_timeout_work true allocOk urand ssidList st).2.countP isScanDone = 0) ∧
    ((owl_scan_timeout_work true allocOk urand ssidList st).1.scan_request =
      st.scan_request) := by
  have hno := inform_dummy_bss_no_scan_done allocOk urand ssidList st.ssid_table
  refine ⟨?_, ?_, ?_, ?_, ?_⟩
  · rw [owl_scan_timeout_work]
    simp only [if_neg Bool.false_ne_true, List.countP_append, hno]
    rfl
  · rw [owl_scan_timeout_work]
    simp only [if_neg Bool.false_ne_true]
    exact List.getLast?_concat _
  · simp [owl_scan_timeout_work]
  · rw [owl_scan_timeout_work]
    simp only [if_pos rfl]
    exact hno
  · simp [owl_scan_timeout_work]

/-- C8: the claim that an allocation failure abandons only the current
insertion and processing of the remaining tokens continues is false: on the
configuration string `"[A][B]"` with the allocation for `"A"` failing (and
all later allocations succeeding), `update_ssids` returns the directory
unchanged (empty), and in particular the remaining token `"B"` was never
inserted — the C function logs and returns on the first failed `kzalloc`. -/
theorem c8_counterexample_alloc_failure_stops_load :
    tokenize c8_cfg = [[65], [66]] ∧
    update_ssids c8_alloc c8_cfg [] = [] ∧
    ap_directory_contains (update_ssids c8_alloc c8_cfg []) [66] = false := by
  decide

/-- C8 (amended): an allocation failure during load aborts the rest of the
load — the failed insertion and all remaining tokens are skipped — while
every entry already in the directory is preserved, so the directory remains
usable and a later scan proceeds with the directory missing the failed AP
and any subsequent new ones. -/
theorem c8_amended_alloc_failure_aborts_load :
    (∀ (allocOk : Nat → Bool) (cnt : Nat) (toks : List (List Nat))
       (table : List APEntry),
       ∀ e ∈ table, e ∈ update_tokens allocOk cnt toks table) ∧
    (∀ (cnt : Nat) (toks : List (List Nat)) (table : List APEntry),
       update_tokens (fun _ => false) cnt toks table = table) := by
  constructor
  · intro allocOk cnt toks
    induction toks generalizing cnt with
    | nil => intro table e he; exact he
    | cons tok rest ih =>
      intro table e he
      rw [update_tokens]
      by_cases hex : ssid_exists tok (murmurhash tok % 2 ^ 32) table
      · rw [if_pos hex]
        exact ih cnt table e he
      · rw [if_neg hex]
        by_cases hal : allocOk cnt
        · rw [if_pos hal]
          exact ih (cnt + 1) _ e (List.mem_cons_of_mem _ he)
        · rw [if_neg hal]
          exact he
  · intro cnt toks
    induction toks generalizing cnt with
    | nil => intro table; rfl
    | cons tok rest ih =>
      intro table
      rw [update_tokens]
      by_cases hex : ssid_exists tok (murmurhash tok % 2 ^ 32) table
      · rw [if_pos hex]
        exact ih cnt table
      · rw [if_neg hex]
        exact if_neg (by simp)

/-- Witness for C8 (amended): a concrete entry of a concrete directory is
still present after a load whose allocations all fail. -/
theorem c8_amended_witness :
    APEntry.mk 3 [65] [] ∈
      update_tokens (fun _ => false) 0 (tokenize c8_cfg) [APEntry.mk 3 [65] []] :=
  c8_amended_alloc_failure_aborts_load.1 (fun _ => false) 0 (tokenize c8_cfg)
    [APEntry.mk 3 [65] []] (APEntry.mk 3 [65] []) (List.mem_cons_self _ _)

theorem abs_tmod71_le (r : Int) : |Int.tmod r 71| ≤ 70 := by
  rcases r with m | m
  · have h1 : Int.tmod (Int.ofNat m) 71 = Int.ofNat (m % 71) := rfl
    rw [h1]
    have hlt : m % 71 < 71 := Nat.mod_lt m (by norm_num)
    show |((m % 71 : Nat) : Int)| ≤ 70
    rw [abs_of_nonneg (Int.natCast_nonneg _)]
    exact_mod_cast Nat.le_of_lt_succ hlt
  · have h1 : Int.tmod (Int.negSucc m) 71 = -Int.ofNat ((m + 1) % 71) := rfl
    rw [h1, abs_neg]
    have hlt : (m + 1) % 71 < 71 := Nat.mod_lt (m + 1) (by norm_num)
    show |(((m + 1) % 71 : Nat) : Int)| ≤ 70
    rw [abs_of_nonneg (Int.natCast_nonneg _)]
    exact_mod_cast Nat.le_of_lt_succ hlt

/-- C9: for every value of the random source, `rand_int(-100, -30)` lies in
the inclusive range [-100, -30], and consequently every BSS observation
reported by `inform_dummy_bss` carries a signal — the random integer
multiplied by 100 — in [-10000, -3000] milli-dBm. -/
theorem c9_signal_in_range :
    (∀ u : Nat, -100 ≤ rand_int (-100) (-30) u ∧ rand_int (-100) (-30) u ≤ -30) ∧
    (∀ (allocOk : Nat → Bool) (urand : Nat → Nat) (ssidList : List Nat)
       (table : List APEntry) (bssid : List Nat) (signal : Int) (ie : List Nat),
       Upcall.bssReport bssid signal ie ∈
         (inform_dummy_bss allocOk urand ssidList table).2 →
       -10000 ≤ signal ∧ signal ≤ -3000) := by
  have hrand : ∀ u : Nat,
      -100 ≤ rand_int (-100) (-30) u ∧ rand_int (-100) (-30) u ≤ -30 := by
    intro u
    have h := abs_tmod71_le (s32_of_u32 u)
    have h0 : 0 ≤ |Int.tmod (s32_of_u32 u) 71| := abs_nonneg _
    simp only [rand_int]
    norm_num
    omega
  refine ⟨hrand, ?_⟩
  intro allocOk urand ssidList table bssid signal ie hmem
  rw [inform_dummy_bss] at hmem
  by_cases h : (update_ssids allocOk ssidList table).isEmpty
  · simp [h] at hmem
  · simp only [h, Bool.false_eq_true, if_false] at hmem
    rw [List.mem_map] at hmem
    obtain ⟨p, hp, heq⟩ := hmem
    rw [Upcall.bssReport.injEq] at heq
    obtain ⟨-, hsig, -⟩ := heq
    have h1 := hrand (urand p.1)
    omega

/-- Witness for C9 at the concrete random value 0. -/
theorem c9_signal_witness :
    -100 ≤ rand_int (-100) (-30) 0 ∧ rand_int (-100) (-30) 0 ≤ -30 :=
  c9_signal_in_range.1 0

/-- C10: `connecting_ssid` always holds at most `SSID_MAX_LENGTH` bytes:
module init sets it empty; a non-interrupted `owl_connect` stores at most 32
bytes and writes the terminating zero at an index below 33 (inside the
33-byte buffer); an interrupted `owl_connect` changes nothing; the connect
work handler resets it to empty when it runs, and changes nothing when its
mutex wait is interrupted. -/
theorem c10_connecting_ssid_bounded :
    (∀ g : OwlState, (vwifi_init g).connecting_ssid = []) ∧
    (∀ (schedOk : Bool) (sme : List Nat) (st : OwlState),
       (owl_connect false schedOk sme st).2.connecting_ssid.length ≤
         SSID_MAX_LENGTH) ∧
    (∀ sme : List Nat,
       owl_connect_terminator_index sme < SSID_MAX_LENGTH + 1) ∧
    (∀ (schedOk : Bool) (sme : List Nat) (st : OwlState),
       (owl_connect true schedOk sme st).2 = st) ∧
    (∀ st : OwlState, (owl_connect_routine false st).1.connecting_ssid = []) ∧
    (∀ st : OwlState, (owl_connect_routine true st).1 = st) := by
  refine ⟨fun g => rfl, ?_, ?_, ?_, ?_, fun st => rfl⟩
  · intro schedOk sme st
    have hle : ∀ (k : Nat),
        ((sme.take k).takeWhile (fun b => b != 0)).length ≤ k :=
      fun k => le_trans (List.takeWhile_prefix _).length_le
        (List.length_take_le k sme)
    rcases schedOk with _ | _ <;>
      simp only [owl_connect, Bool.false_eq_true, if_neg, if_false, if_true] <;>
      exact le_trans (hle _) (by split <;> omega)
  · intro sme
    rw [owl_connect_terminator_index]
    split <;> omega
  · intro schedOk sme st
    rw [owl_connect, if_pos rfl]
  · intro st
    rw [owl_connect_routine]
    by_cases h : is_valid_ssid st.connecting_ssid st.ssid_table <;> simp [h]

/-- C4: a transmit of payload `B` (at most the Ethernet data length) on
interface `dev`, starting from a state where the peer's receive queue is
empty and with both allocations succeeding, delivers exactly the pair
`(peer, B)` to the host stack — the frame is appended to the peer's queue
and immediately drained, leaving the queue empty — while the sender's
`tx_packets` grows by 1 and `tx_bytes` by `|B|`, and the peer's `rx_packets`
grows by 1 and `rx_bytes` by `|B|`. -/
theorem c4_loopback_delivery (B : List Nat) (dev : Nat) (st : NetState)
    (hdev : dev < 2) (hlen : st.ifaces.length = 2)
    (_hB : B.length ≤ ETH_DATA_LEN)
    (hq : (getIface st (peer_iface dev)).rx_queue = []) :
    (owl_ndo_start_xmit true true B dev st).2 = [(peer_iface dev, B)] ∧
    (getIface (owl_ndo_start_xmit true true B dev st).1 dev).stats.tx_packets
      = (getIface st dev).stats.tx_packets + 1 ∧
    (getIface (owl_ndo_start_xmit true true B dev st).1 dev).stats.tx_bytes
      = (getIface st dev).stats.tx_bytes + B.length ∧
    (getIface (owl_ndo_start_xmit true true B dev st).1
        (peer_iface dev)).stats.rx_packets
      = (getIface st (peer_iface dev)).stats.rx_packets + 1 ∧
    (getIface (owl_ndo_start_xmit true true B dev st).1
        (peer_iface dev)).stats.rx_bytes
      = (getIface st (peer_iface dev)).stats.rx_bytes + B.length ∧
    (getIface (owl_ndo_start_xmit true true B dev st).1
        (peer_iface dev)).rx_queue = [] := by
  obtain ⟨ifs⟩ := st
  obtain ⟨a, b, hab⟩ := List.length_eq_two.1 hlen
  simp only at hab
  subst hab
  rcases dev with _ | _ | n
  · simp only [peer_iface, netintf_ids, getIface] at hq ⊢
    norm_num at hq ⊢
    simp [owl_ndo_start_xmit, owl_handle_rx, getIface, setIface, netintf_ids, hq]
  · simp only [peer_iface, netintf_ids, getIface] at hq ⊢
    norm_num at hq ⊢
    simp [owl_ndo_start_xmit, owl_handle_rx, getIface, setIface, netintf_ids, hq]
  · omega

/-- Witness for C4: a 3-byte payload transmitted on the station interface of
the fresh two-interface state, hypotheses discharged concretely. -/
theorem c4_loopback_witness :
    (owl_ndo_start_xmit true true [1, 2, 3] 0 sampleNetState).2 =
      [(peer_iface 0, [1, 2, 3])] ∧
    (getIface (owl_ndo_start_xmit true true [1, 2, 3] 0 sampleNetState).1
        0).stats.tx_packets
      = (getIface sampleNetState 0).stats.tx_packets + 1 ∧
    (getIface (owl_ndo_start_xmit true true [1, 2, 3] 0 sampleNetState).1
        0).stats.tx_bytes
      = (getIface sampleNetState 0).stats.tx_bytes + [1, 2, 3].length ∧
    (getIface (owl_ndo_start_xmit true true [1, 2, 3] 0 sampleNetState).1
        (peer_iface 0)).stats.rx_packets
      = (getIface sampleNetState (peer_iface 0)).stats.rx_packets + 1 ∧
    (getIface (owl_ndo_start_xmit true true [1, 2, 3] 0 sampleNetState).1
        (peer_iface 0)).stats.rx_bytes
      = (getIface sampleNetState (peer_iface 0)).stats.rx_bytes +
          [1, 2, 3].length ∧
    (getIface (owl_ndo_start_xmit true true [1, 2, 3] 0 sampleNetState).1
        (peer_iface 0)).rx_queue = [] :=
  c4_loopback_delivery [1, 2, 3] 0 sampleNetState (by decide) (by decide)
    (by decide) (by decide)

end Vwifi
